import Mathlib

/-!
Verification of the ObsidiDraw freehand-notes plugin.

The development shallowly embeds the plugin's two components:
* the settings store — `loadSettings` / `saveSettings`, which merge a
  persisted record over hard-coded defaults via `Object.assign`;
* the drawing overlay — pointer-event handlers (`startDrawing`, `draw`,
  `stopDrawing`), toolbar handlers, and drawing persistence
  (`saveDrawing`, `loadDrawing`, the settings tab's clear-drawing action).

Canvas path/stroke behaviour follows the WHATWG HTML canvas
specification's trace-a-path rules: zero-length line segments are pruned
and subpaths containing a single point are not stroked.
-/

/-- A JavaScript value as it occurs in the plugin's records: strings
(colors, data URIs), numbers (widths, timestamps) and booleans. -/
inductive JSValue where
  | str (s : String)
  | num (n : Int)
  | bool (b : Bool)
deriving DecidableEq, Repr

/-- JavaScript truthiness for the values above (empty string and zero are
falsy). -/
def jsTruthy : JSValue → Bool
  | .str s => !s.isEmpty
  | .num n => if n = 0 then false else true
  | .bool b => b

/-- A persisted record over the keys the plugin ever reads or writes: the
four settings keys plus the `drawing` and `timestamp` keys of the snapshot
record written by `saveDrawing`. `none` means the key is absent from the
record. -/
structure JSRecord where
  penColor : Option JSValue
  penWidth : Option JSValue
  eraserSize : Option JSValue
  showToolbar : Option JSValue
  drawing : Option JSValue
  timestamp : Option JSValue
deriving DecidableEq, Repr

/-- The record with no keys, `{}`. -/
def emptyRecord : JSRecord :=
  { penColor := none, penWidth := none, eraserSize := none,
    showToolbar := none, drawing := none, timestamp := none }

/-- Per-key behaviour of `Object.assign`: a key present in the source
overwrites the target's key, an absent key leaves the target's key. -/
def orKey (s t : Option JSValue) : Option JSValue :=
  match s with
  | some v => some v
  | none => t

/-- `Object.assign(target, source)` restricted to the plugin's keys. -/
def objAssign (t s : JSRecord) : JSRecord :=
  { penColor := orKey s.penColor t.penColor,
    penWidth := orKey s.penWidth t.penWidth,
    eraserSize := orKey s.eraserSize t.eraserSize,
    showToolbar := orKey s.showToolbar t.showToolbar,
    drawing := orKey s.drawing t.drawing,
    timestamp := orKey s.timestamp t.timestamp }

/-- `DEFAULT_SETTINGS` of the plugin source: penColor `#000000`,
penWidth 2, eraserSize 10, showToolbar true. -/
def DEFAULT_SETTINGS : JSRecord :=
  { penColor := some (.str "#000000"), penWidth := some (.num 2),
    eraserSize := some (.num 10), showToolbar := some (.bool true),
    drawing := none, timestamp := none }

/-- `loadSettings`:
`this.settings = Object.assign(\x7b\x7d, DEFAULT_SETTINGS, await this.loadData())`.
`Object.assign` skips a `null` source, so when no record is persisted the
defaults pass through unchanged. -/
def loadSettings (stored : Option JSRecord) : JSRecord :=
  match stored with
  | none => objAssign emptyRecord DEFAULT_SETTINGS
  | some r => objAssign (objAssign emptyRecord DEFAULT_SETTINGS) r

/-- `saveSettings`: `await this.saveData(this.settings)` — the record host
storage holds afterwards. -/
def saveSettings (s : JSRecord) : Option JSRecord := some s

/-- The record written by `saveDrawing`:
`\x7b drawing: imageData, timestamp: Date.now() \x7d` — it contains exactly
the keys `drawing` and `timestamp`. -/
def drawingRecord (imageData : String) (now : Int) : JSRecord :=
  { penColor := none, penWidth := none, eraserSize := none,
    showToolbar := none, drawing := some (.str imageData),
    timestamp := some (.num now) }

/-- A segment the canvas has painted: its two endpoints, the stroke color
and line width used, and the compositing mode in force when it was
stroked. -/
structure PaintedSegment where
  p1 : Int × Int
  p2 : Int × Int
  color : String
  width : Int
  compositeOp : String
deriving DecidableEq, Repr

/-- The mutable state of the `CanvasRenderingContext2D` the overlay draws
through: the style fields the code assigns, the current path (a list of
subpaths, each a list of points), and the pixel-relevant content — an
optional background image (from `drawImage`) plus the list of stroked
segments. -/
structure Ctx where
  strokeStyle : String
  lineWidth : Int
  lineCap : String
  lineJoin : String
  globalCompositeOperation : String
  path : List (List (Int × Int))
  background : Option JSValue
  painted : List PaintedSegment
deriving DecidableEq, Repr

/-- `ctx.beginPath()`: empty the current path. -/
def beginPath (c : Ctx) : Ctx := { c with path := [] }

/-- `ctx.moveTo(x, y)`: start a new subpath at the given point. -/
def moveTo (c : Ctx) (p : Int × Int) : Ctx := { c with path := c.path ++ [[p]] }

/-- Append a point to the last subpath of a path; on an empty path, create
a subpath for the point (the WHATWG `lineTo` ensure-subpath rule). -/
def appendLast : List (List (Int × Int)) → (Int × Int) → List (List (Int × Int))
  | [], p => [[p]]
  | [l], p => [l ++ [p]]
  | l :: ls, p => l :: appendLast ls p

/-- `ctx.lineTo(x, y)`. -/
def lineTo (c : Ctx) (p : Int × Int) : Ctx := { c with path := appendLast c.path p }

/-- The segments stroking one subpath paints, per the WHATWG trace-a-path
rules: consecutive point pairs, with zero-length segments pruned; a
subpath with fewer than two points paints nothing. -/
def segsOfSubpath (col : String) (w : Int) (op : String) :
    List (Int × Int) → List PaintedSegment
  | [] => []
  | [_] => []
  | p :: q :: rest =>
      (if p = q then [] else [⟨p, q, col, w, op⟩]) ++
        segsOfSubpath col w op (q :: rest)

/-- The segments stroking a whole path paints. -/
def pathSegments (path : List (List (Int × Int))) (col : String) (w : Int)
    (op : String) : List PaintedSegment :=
  (path.map (segsOfSubpath col w op)).flatten

/-- `ctx.stroke()`: paint the current path with the current style. -/
def stroke (c : Ctx) : Ctx :=
  { c with painted := c.painted ++
      pathSegments c.path c.strokeStyle c.lineWidth c.globalCompositeOperation }

/-- `ctx.clearRect(0, 0, canvas.width, canvas.height)`: erase every pixel. -/
def clearRectFull (c : Ctx) : Ctx := { c with painted := [], background := none }

/-- `ctx.drawImage(img, 0, 0)` for an image decoded from the persisted
drawing value: install it as the canvas background. -/
def drawImage (c : Ctx) (src : JSValue) : Ctx := { c with background := some src }

/-- Render a point for the canvas encoding. -/
def encodePoint (p : Int × Int) : String := toString p.1 ++ "," ++ toString p.2

/-- Render one painted segment for the canvas encoding. -/
def encodeSegment (s : PaintedSegment) : String :=
  encodePoint s.p1 ++ "-" ++ encodePoint s.p2 ++ ":" ++ s.color ++ ":" ++
    toString s.width ++ ":" ++ s.compositeOp

/-- Render the background for the canvas encoding. -/
def encodeBackground : Option JSValue → String
  | none => ""
  | some (.str s) => s
  | some (.num n) => toString n
  | some (.bool b) => toString b

/-- `canvas.toDataURL()`: a self-contained encoding of the canvas pixel
buffer. Modelled as a canonical, deterministic rendering of the
pixel-relevant state (background plus painted segments). -/
def toDataURL (c : Ctx) : String :=
  "data:image/png;base64," ++ encodeBackground c.background ++ "|" ++
    String.intercalate ";" (c.painted.map encodeSegment)

/-- The typed settings record of the TypeScript variant
(`interface FreehandNotesSettings`). -/
structure FreehandNotesSettings where
  penColor : String
  penWidth : Int
  eraserSize : Int
  showToolbar : Bool
deriving DecidableEq, Repr

/-- `DEFAULT_SETTINGS` of the TypeScript variant. -/
def DEFAULT_SETTINGS_TS : FreehandNotesSettings :=
  { penColor := "#000000", penWidth := 2, eraserSize := 10, showToolbar := true }

/-- `currentTool: 'pen' | 'eraser' | 'select'`. -/
inductive Tool where
  | pen
  | eraser
  | select
deriving DecidableEq, Repr

/-- The plugin instance's mutable fields while the overlay is mounted: the
live settings object, the canvas context, the transient draw state, the
host-storage record (what `loadData` returns and `saveData` replaces), and
the observable host UI effects (notices shown, console errors logged). -/
structure PluginState where
  settings : FreehandNotesSettings
  ctx : Ctx
  isDrawing : Bool
  currentTool : Tool
  storage : Option JSRecord
  notices : List String
  consoleErrors : List String
deriving DecidableEq, Repr

/-- `draw(e)`: if not drawing, return; otherwise set stroke style, width,
caps and joins from the live settings, `lineTo` the event point, `stroke`,
then `beginPath` and `moveTo` the event point — each move paints one
independent segment and resets the path. -/
def draw (st : PluginState) (e : Int × Int) : PluginState :=
  if st.isDrawing then
    let c0 := { st.ctx with strokeStyle := st.settings.penColor,
                            lineWidth := st.settings.penWidth,
                            lineCap := "round", lineJoin := "round" }
    { st with ctx := moveTo (beginPath (stroke (lineTo c0 e))) e }
  else st

/-- `startDrawing(e)`: set `isDrawing` and immediately `draw(e)`. -/
def startDrawing (st : PluginState) (e : Int × Int) : PluginState :=
  draw { st with isDrawing := true } e

/-- `stopDrawing()`: clear `isDrawing` and reset the path. -/
def stopDrawing (st : PluginState) : PluginState :=
  { st with isDrawing := false, ctx := beginPath st.ctx }

/-- The pen toolbar button's click handler: select the pen tool and set the
compositing mode to `source-over`. -/
def penButtonClick (st : PluginState) : PluginState :=
  { st with currentTool := .pen,
            ctx := { st.ctx with globalCompositeOperation := "source-over" } }

/-- The eraser toolbar button's click handler: select the eraser tool and
set the compositing mode to `destination-out`. -/
def eraserButtonClick (st : PluginState) : PluginState :=
  { st with currentTool := .eraser,
            ctx := { st.ctx with globalCompositeOperation := "destination-out" } }

/-- The toolbar color picker's change handler:
`this.settings.penColor = e.target.value`. -/
def colorPickerChange (st : PluginState) (v : String) : PluginState :=
  { st with settings := { st.settings with penColor := v } }

/-- The toolbar width slider's input handler:
`this.settings.penWidth = parseInt(e.target.value)`; `v` is the parsed
integer value of the range input (its value string is always a decimal
integer between the slider bounds). -/
def penWidthSliderInput (st : PluginState) (v : Int) : PluginState :=
  { st with settings := { st.settings with penWidth := v } }

/-- `new Obsidian.Notice(msg)`. The module imports only `Plugin`,
`PluginSettingTab` and `Setting` from the obsidian module, and neither the
module nor the host defines a binding named `Obsidian`, so evaluating
`Obsidian.Notice` throws a ReferenceError instead of showing the notice.
Returns the (unchanged) state and the thrown exception. -/
def newObsidianNotice (st : PluginState) (_msg : String) :
    PluginState × Option String :=
  (st, some "ReferenceError: Obsidian is not defined")

/-- The catch block of `saveDrawing`: log the error with `console.error`,
then attempt the failure notice — which itself throws, `Obsidian` being
undefined, so the exception escapes the catch block. -/
def saveDrawingCatch (st : PluginState) (e : String) : PluginState × Option String :=
  let st1 := { st with consoleErrors :=
                st.consoleErrors ++ ["Failed to save drawing: " ++ e] }
  newObsidianNotice st1 "Failed to save drawing"

/-- `saveDrawing()`: encode the canvas with `toDataURL`, persist
`\x7b drawing, timestamp \x7d` (replacing the stored record), then show the
success notice; any exception reaches the catch block. `now` is
`Date.now()`; `saveDataResult` is the outcome of the host `saveData` call.
Returns the final state and the uncaught exception (the rejection of the
returned promise), if any. -/
def saveDrawing (st : PluginState) (now : Int)
    (saveDataResult : Except String Unit) : PluginState × Option String :=
  let imageData := toDataURL st.ctx
  match saveDataResult with
  | .error e => saveDrawingCatch st e
  | .ok _ =>
      let st1 := { st with storage := some (drawingRecord imageData now) }
      match newObsidianNotice st1 "Drawing saved successfully!" with
      | (st2, none) => (st2, none)
      | (st2, some e) => saveDrawingCatch st2 e

/-- `loadDrawing()`: read the stored record; when it is non-null and its
`drawing` key is truthy, clear the canvas and draw the saved image as
background; otherwise do nothing. Any failure of the host `loadData` call
(`loadDataFails`) is caught and logged, with no notice and no rethrow. -/
def loadDrawing (st : PluginState) (loadDataFails : Option String) :
    PluginState × Option String :=
  match loadDataFails with
  | some e =>
      ({ st with consoleErrors :=
          st.consoleErrors ++ ["Failed to load drawing: " ++ e] }, none)
  | none =>
      match st.storage with
      | none => (st, none)
      | some r =>
          match r.drawing with
          | none => (st, none)
          | some v =>
              if jsTruthy v then
                ({ st with ctx := drawImage (clearRectFull st.ctx) v }, none)
              else (st, none)

/-- The settings tab's Clear Drawing button handler:
`await this.plugin.saveData(null)` (persist a null record), then attempt a
notice (which throws, `Obsidian` being undefined — after the persist has
completed). -/
def clearDrawingClick (st : PluginState) : PluginState × Option String :=
  let st1 := { st with storage := none }
  newObsidianNotice st1 "Saved drawing has been cleared"

/-- The context of a freshly created canvas, with the 2D context's default
style values and an empty path and pixel buffer. -/
def freshCtx : Ctx :=
  { strokeStyle := "#000000", lineWidth := 1, lineCap := "butt",
    lineJoin := "miter", globalCompositeOperation := "source-over",
    path := [], background := none, painted := [] }

/-- A freshly mounted overlay on first run: default settings, fresh canvas,
not drawing, pen tool, nothing persisted, no UI effects yet. -/
def mountedState : PluginState :=
  { settings := DEFAULT_SETTINGS_TS, ctx := freshCtx, isDrawing := false,
    currentTool := .pen, storage := none, notices := [], consoleErrors := [] }

/-- The segments one `draw` call appends to the canvas: nothing when not
drawing, otherwise the stroke of the path extended to the event point,
painted with the live pen color and width. -/
def drawAppended (st : PluginState) (e : Int × Int) : List PaintedSegment :=
  if st.isDrawing then
    pathSegments (appendLast st.ctx.path e) st.settings.penColor
      st.settings.penWidth st.ctx.globalCompositeOperation
  else []

/-- A key present in the source wins the merge. -/
theorem orKey_some (v : JSValue) (t : Option JSValue) : orKey (some v) t = some v := rfl

/-- A key absent from the source keeps the target's value. -/
theorem orKey_none (t : Option JSValue) : orKey none t = t := rfl

/-- Merging an absent key over anything is the identity. -/
theorem orKey_none_right (s : Option JSValue) : orKey s none = s := by
  cases s <;> rfl

/-- C1: for every persisted partial record whose keys are a subset of the
default record's keys, `loadSettings` yields a record with every key of the
defaults (and no other key), where each key present in the stored record
takes the stored value and each absent key takes the default value; when no
record is persisted the result is exactly `DEFAULT_SETTINGS`. -/
theorem loadSettings_shallow_merge (r : JSRecord)
    (hd : r.drawing = none) (ht : r.timestamp = none) :
    loadSettings none = DEFAULT_SETTINGS ∧
    ((loadSettings (some r)).penColor.isSome ∧
      (loadSettings (some r)).penWidth.isSome ∧
      (loadSettings (some r)).eraserSize.isSome ∧
      (loadSettings (some r)).showToolbar.isSome) ∧
    ((loadSettings (some r)).drawing = none ∧
      (loadSettings (some r)).timestamp = none) ∧
    (∀ v, r.penColor = some v → (loadSettings (some r)).penColor = some v) ∧
    (r.penColor = none →
      (loadSettings (some r)).penColor = DEFAULT_SETTINGS.penColor) ∧
    (∀ v, r.penWidth = some v → (loadSettings (some r)).penWidth = some v) ∧
    (r.penWidth = none →
      (loadSettings (some r)).penWidth = DEFAULT_SETTINGS.penWidth) ∧
    (∀ v, r.eraserSize = some v → (loadSettings (some r)).eraserSize = some v) ∧
    (r.eraserSize = none →
      (loadSettings (some r)).eraserSize = DEFAULT_SETTINGS.eraserSize) ∧
    (∀ v, r.showToolbar = some v → (loadSettings (some r)).showToolbar = some v) ∧
    (r.showToolbar = none →
      (loadSettings (some r)).showToolbar = DEFAULT_SETTINGS.showToolbar) := by
  refine ⟨rfl, ?_, ?_, ?_, ?_, ?_, ?_, ?_, ?_, ?_, ?_⟩
  · simp only [loadSettings, objAssign, DEFAULT_SETTINGS, emptyRecord]
    cases hc : r.penColor <;> cases hw : r.penWidth <;>
      cases he : r.eraserSize <;> cases hs : r.showToolbar <;>
      simp [orKey]
  · simp only [loadSettings, objAssign, DEFAULT_SETTINGS, emptyRecord, hd, ht]
    simp [orKey]
  all_goals
    simp only [loadSettings, objAssign, DEFAULT_SETTINGS, emptyRecord]
  · intro v hv; simp [hv, orKey]
  · intro hv; simp [hv, orKey]
  · intro v hv; simp [hv, orKey]
  · intro hv; simp [hv, orKey]
  · intro v hv; simp [hv, orKey]
  · intro hv; simp [hv, orKey]
  · intro v hv; simp [hv, orKey]
  · intro hv; simp [hv, orKey]

/-- C1 witness: merging the one-key record penColor = "#ff0000" over the
defaults keeps the stored color. -/
theorem loadSettings_shallow_merge_witness :
    (loadSettings (some { emptyRecord with penColor := some (.str "#ff0000") })).penColor
      = some (.str "#ff0000") := by
  have h := loadSettings_shallow_merge
    { emptyRecord with penColor := some (.str "#ff0000") } rfl rfl
  exact h.2.2.2.1 _ rfl

/-- C2: for every settings record holding all four settings fields,
`saveSettings` followed by `loadSettings` on the resulting storage
reproduces the record exactly. -/
theorem loadSettings_saveSettings_roundtrip (s : JSRecord)
    (h1 : s.penColor.isSome = true) (h2 : s.penWidth.isSome = true)
    (h3 : s.eraserSize.isSome = true) (h4 : s.showToolbar.isSome = true) :
    loadSettings (saveSettings s) = s := by
  obtain ⟨pc, pw, es, tb, dr, ts⟩ := s
  simp only [Option.isSome] at h1 h2 h3 h4
  cases pc with
  | none => simp at h1
  | some a =>
    cases pw with
    | none => simp at h2
    | some b =>
      cases es with
      | none => simp at h3
      | some c =>
        cases tb with
        | none => simp at h4
        | some d =>
          simp [loadSettings, saveSettings, objAssign, emptyRecord,
            DEFAULT_SETTINGS, orKey, orKey_none_right]
          exact ⟨orKey_none_right dr, orKey_none_right ts⟩

/-- C2 witness: a concrete full settings record round-trips through
saveSettings then loadSettings. -/
theorem loadSettings_saveSettings_roundtrip_witness :
    loadSettings (saveSettings
      { penColor := some (.str "#123456"), penWidth := some (.num 5),
        eraserSize := some (.num 7), showToolbar := some (.bool false),
        drawing := none, timestamp := none })
    = { penColor := some (.str "#123456"), penWidth := some (.num 5),
        eraserSize := some (.num 7), showToolbar := some (.bool false),
        drawing := none, timestamp := none } :=
  loadSettings_saveSettings_roundtrip _ rfl rfl rfl rfl

/-- C10: `saveDrawing` (with the host write succeeding) replaces whatever
record was stored with a record holding exactly the keys `drawing` and
`timestamp`; a `loadSettings` performed on the resulting storage therefore
returns the default value for every settings field — saving a drawing
discards all persisted settings. -/
theorem saveDrawing_discards_settings (st : PluginState) (n : Int) :
    ((saveDrawing st n (.ok ())).1).storage
        = some (drawingRecord (toDataURL st.ctx) n) ∧
    ((drawingRecord (toDataURL st.ctx) n).penColor = none ∧
      (drawingRecord (toDataURL st.ctx) n).penWidth = none ∧
      (drawingRecord (toDataURL st.ctx) n).eraserSize = none ∧
      (drawingRecord (toDataURL st.ctx) n).showToolbar = none ∧
      (drawingRecord (toDataURL st.ctx) n).drawing.isSome ∧
      (drawingRecord (toDataURL st.ctx) n).timestamp.isSome) ∧
    ((loadSettings ((saveDrawing st n (.ok ())).1).storage).penColor
        = DEFAULT_SETTINGS.penColor ∧
      (loadSettings ((saveDrawing st n (.ok ())).1).storage).penWidth
        = DEFAULT_SETTINGS.penWidth ∧
      (loadSettings ((saveDrawing st n (.ok ())).1).storage).eraserSize
        = DEFAULT_SETTINGS.eraserSize ∧
      (loadSettings ((saveDrawing st n (.ok ())).1).storage).showToolbar
        = DEFAULT_SETTINGS.showToolbar) := by
  exact ⟨rfl, ⟨rfl, rfl, rfl, rfl, rfl, rfl⟩, rfl, rfl, rfl, rfl⟩

/-- Every segment stroked from one subpath carries the style it was
stroked with. -/
theorem segsOfSubpath_fields (col : String) (w : Int) (op : String) :
    ∀ (l : List (Int × Int)) (s : PaintedSegment),
      s ∈ segsOfSubpath col w op l →
        s.color = col ∧ s.width = w ∧ s.compositeOp = op := by
  intro l
  induction l with
  | nil => intro s hs; simp [segsOfSubpath] at hs
  | cons p tl ih =>
    cases tl with
    | nil => intro s hs; simp [segsOfSubpath] at hs
    | cons q rest =>
      intro s hs
      simp only [segsOfSubpath, List.mem_append] at hs
      rcases hs with hs | hs
      · by_cases hpq : p = q
        · simp [hpq] at hs
        · simp [hpq] at hs
          subst hs
          exact ⟨rfl, rfl, rfl⟩
      · exact ih s hs

/-- Every segment stroked from a path carries the style it was stroked
with. -/
theorem pathSegments_fields (path : List (List (Int × Int))) (col : String)
    (w : Int) (op : String) (s : PaintedSegment)
    (hs : s ∈ pathSegments path col w op) :
    s.color = col ∧ s.width = w ∧ s.compositeOp = op := by
  simp only [pathSegments, List.mem_flatten, List.mem_map] at hs
  rcases hs with ⟨l, ⟨sub, _, rfl⟩, hsl⟩
  exact segsOfSubpath_fields col w op sub s hsl

/-- One `draw` call appends exactly `drawAppended` to the painted
segments. -/
theorem draw_painted (st : PluginState) (e : Int × Int) :
    (draw st e).ctx.painted = st.ctx.painted ++ drawAppended st e := by
  cases hb : st.isDrawing <;>
    simp [draw, drawAppended, hb, stroke, lineTo, beginPath, moveTo]

/-- C3 counterexample: on a freshly mounted overlay, pointer-down at
(10,10) followed by pointer-up with no move paints nothing at all — the
single-point subpath strokes no segment under the canvas specification's
path-tracing rules — so the canvas does not contain a dot at (10,10). -/
theorem click_dot_counterexample :
    (stopDrawing (startDrawing mountedState (10, 10))).ctx.painted = [] ∧
    (stopDrawing (startDrawing mountedState (10, 10))).isDrawing = false := by
  exact ⟨rfl, rfl⟩

/-- C3 (amended): for a pointer-down at (10,10) followed by a pointer-up
with no intervening move, starting from a mounted overlay with an empty
path, no mark is painted (the zero-length click stroke paints nothing, the
painted pixels are unchanged), the path is reset, and `isDrawing` is false
afterwards. -/
theorem click_paints_nothing (st : PluginState) (hpath : st.ctx.path = []) :
    (stopDrawing (startDrawing st (10, 10))).ctx.painted = st.ctx.painted ∧
    (stopDrawing (startDrawing st (10, 10))).isDrawing = false ∧
    (stopDrawing (startDrawing st (10, 10))).ctx.path = [] := by
  refine ⟨?_, rfl, rfl⟩
  simp [stopDrawing, startDrawing, draw, beginPath, moveTo, lineTo, stroke,
    appendLast, hpath, pathSegments, segsOfSubpath]

/-- C3 witness: the amended behaviour on the freshly mounted overlay. -/
theorem click_paints_nothing_witness :
    (stopDrawing (startDrawing mountedState (10, 10))).ctx.painted
        = mountedState.ctx.painted ∧
    (stopDrawing (startDrawing mountedState (10, 10))).isDrawing = false ∧
    (stopDrawing (startDrawing mountedState (10, 10))).ctx.path = [] :=
  click_paints_nothing mountedState rfl

/-- C4: pointer-down at (0,0), move to (50,50), a pen-color change, then a
move to (100,0) and pointer-up paint exactly the two independent segments
(0,0)→(50,50) and (50,50)→(100,0); each segment takes the pen color and
width live at the moment it is drawn, so the second segment carries the
new color while the first keeps the old one, and `isDrawing` ends false. -/
theorem draw_independent_segments (st : PluginState) (newColor : String)
    (hpath : st.ctx.path = []) :
    (stopDrawing (draw (colorPickerChange
        (draw (startDrawing st (0, 0)) (50, 50)) newColor) (100, 0))).ctx.painted
      = st.ctx.painted ++
        [⟨(0, 0), (50, 50), st.settings.penColor, st.settings.penWidth,
            st.ctx.globalCompositeOperation⟩,
         ⟨(50, 50), (100, 0), newColor, st.settings.penWidth,
            st.ctx.globalCompositeOperation⟩] ∧
    (stopDrawing (draw (colorPickerChange
        (draw (startDrawing st (0, 0)) (50, 50)) newColor) (100, 0))).isDrawing
      = false := by
  refine ⟨?_, rfl⟩
  have h1 : ¬((0 : Int × Int) = ((50 : Int), (50 : Int))) := by decide
  have h2 : ((50 : Int), (50 : Int)) ≠ ((100 : Int), (0 : Int)) := by decide
  simp [stopDrawing, startDrawing, draw, colorPickerChange, beginPath,
    moveTo, lineTo, stroke, appendLast, hpath, pathSegments, segsOfSubpath,
    h1, h2]

/-- C4 witness: the two-segment scenario on the freshly mounted overlay
with the color changed to "#ff0000" between the moves. -/
theorem draw_independent_segments_witness :
    (stopDrawing (draw (colorPickerChange
        (draw (startDrawing mountedState (0, 0)) (50, 50)) "#ff0000") (100, 0))).ctx.painted
      = mountedState.ctx.painted ++
        [⟨(0, 0), (50, 50), mountedState.settings.penColor,
            mountedState.settings.penWidth,
            mountedState.ctx.globalCompositeOperation⟩,
         ⟨(50, 50), (100, 0), "#ff0000", mountedState.settings.penWidth,
            mountedState.ctx.globalCompositeOperation⟩] ∧
    (stopDrawing (draw (colorPickerChange
        (draw (startDrawing mountedState (0, 0)) (50, 50)) "#ff0000") (100, 0))).isDrawing
      = false :=
  draw_independent_segments mountedState "#ff0000" rfl

/-- C5: calling `saveDrawing` twice in succession (host writes succeeding,
no drawing operation between the calls) persists records whose `drawing`
payloads are identical — only the `timestamp` field can differ. -/
theorem saveDrawing_payload_stable (st : PluginState) (n1 n2 : Int) :
    ∃ r1 r2 : JSRecord,
      ((saveDrawing st n1 (.ok ())).1).storage = some r1 ∧
      ((saveDrawing ((saveDrawing st n1 (.ok ())).1) n2 (.ok ())).1).storage
        = some r2 ∧
      r1.drawing = r2.drawing ∧
      r1.drawing = some (.str (toDataURL st.ctx)) ∧
      r1.timestamp = some (.num n1) ∧ r2.timestamp = some (.num n2) := by
  exact ⟨drawingRecord (toDataURL st.ctx) n1,
    drawingRecord (toDataURL st.ctx) n2, rfl, rfl, rfl, rfl, rfl, rfl⟩

/-- C6: the Clear Drawing action persists a null record, and `loadDrawing`
on a storage that is null or whose record lacks a `drawing` key performs
no canvas operation at all (no clearRect, no drawImage — the whole state
is untouched) and raises nothing. -/
theorem loadDrawing_blank_after_clear (st : PluginState)
    (h : st.storage = none ∨ ∃ r, st.storage = some r ∧ r.drawing = none) :
    ((clearDrawingClick st).1).storage = none ∧
    (loadDrawing st none).1 = st ∧
    (loadDrawing st none).2 = none := by
  rcases h with h | ⟨r, hs, hd⟩
  · exact ⟨rfl, by simp [loadDrawing, h], by simp [loadDrawing, h]⟩
  · exact ⟨rfl, by simp [loadDrawing, hs, hd], by simp [loadDrawing, hs, hd]⟩

/-- C6 witness: the freshly mounted overlay has nothing stored, and
`loadDrawing` leaves it untouched. -/
theorem loadDrawing_blank_after_clear_witness :
    ((clearDrawingClick mountedState).1).storage = none ∧
    (loadDrawing mountedState none).1 = mountedState ∧
    (loadDrawing mountedState none).2 = none :=
  loadDrawing_blank_after_clear mountedState (Or.inl rfl)

/-- C7 (code bug): even when the host `saveData` call succeeds,
`saveDrawing` ends with an uncaught ReferenceError — `Obsidian` is never
defined, so the success notice throws, the catch block's failure notice
throws again, and the rejection escapes with no notification shown (the
payload itself was persisted before the throw). `loadDrawing`, by
contrast, does catch a failing host read, logging it without rethrowing. -/
theorem saveDrawing_exception_escapes :
    (saveDrawing mountedState 0 (.ok ())).2
        = some "ReferenceError: Obsidian is not defined" ∧
    ((saveDrawing mountedState 0 (.ok ())).1).notices = [] ∧
    ((saveDrawing mountedState 0 (.ok ())).1).consoleErrors
        = ["Failed to save drawing: ReferenceError: Obsidian is not defined"] ∧
    ((saveDrawing mountedState 0 (.ok ())).1).storage
        = some (drawingRecord (toDataURL freshCtx) 0) ∧
    (loadDrawing mountedState (some "read failure")).2 = none ∧
    ((loadDrawing mountedState (some "read failure")).1).consoleErrors
        = ["Failed to load drawing: read failure"] := by
  exact ⟨rfl, rfl, rfl, rfl, rfl, rfl⟩

/-- C8: the pen button sets the compositing mode to source-over, the
eraser button sets it to destination-out; and every segment drawn while
the eraser tool is current still uses `settings.penWidth` as its stroke
width — `settings.eraserSize` is never applied, so varying it leaves the
canvas effect of `draw` unchanged. -/
theorem tool_selection_and_eraser_width (st : PluginState) (e : Int × Int)
    (k : Int) (s : PaintedSegment)
    (_hTool : st.currentTool = Tool.eraser)
    (hs : s ∈ drawAppended st e) :
    (penButtonClick st).ctx.globalCompositeOperation = "source-over" ∧
    (penButtonClick st).currentTool = Tool.pen ∧
    (eraserButtonClick st).ctx.globalCompositeOperation = "destination-out" ∧
    (eraserButtonClick st).currentTool = Tool.eraser ∧
    (draw st e).ctx.painted = st.ctx.painted ++ drawAppended st e ∧
    s.width = st.settings.penWidth ∧
    (draw { st with settings := { st.settings with eraserSize := k } } e).ctx
      = (draw st e).ctx := by
  refine ⟨rfl, rfl, rfl, rfl, draw_painted st e, ?_, ?_⟩
  · unfold drawAppended at hs
    cases hb : st.isDrawing
    · rw [hb] at hs; simp at hs
    · rw [hb] at hs; simp only [if_true] at hs
      exact (pathSegments_fields _ _ _ _ s hs).2.1
  · cases hb : st.isDrawing <;>
      simp [draw, hb, lineTo, stroke, beginPath, moveTo]

/-- The overlay state used to witness the eraser-width property: eraser
tool selected, drawing in progress with one recorded point. -/
def eraserWitnessState : PluginState :=
  { mountedState with
    currentTool := .eraser, isDrawing := true,
    ctx := { freshCtx with
             path := [[(0, 0)]],
             globalCompositeOperation := "destination-out" } }

/-- C8 witness: the segment drawn by a move to (1,1) with the eraser
current has width `penWidth` (2), not `eraserSize`. -/
theorem tool_selection_and_eraser_width_witness :
    PaintedSegment.width ⟨(0, 0), (1, 1), "#000000", 2, "destination-out"⟩
        = eraserWitnessState.settings.penWidth ∧
    (eraserButtonClick eraserWitnessState).ctx.globalCompositeOperation
        = "destination-out" := by
  have h := tool_selection_and_eraser_width eraserWitnessState (1, 1) 99
    ⟨(0, 0), (1, 1), "#000000", 2, "destination-out"⟩ rfl (by decide)
  exact ⟨h.2.2.2.2.2.1, h.2.2.1⟩

/-- C9: the toolbar color-picker change handler mutates exactly
`settings.penColor` and the width-slider input handler mutates exactly
`settings.penWidth`; neither touches host storage (no saveData /
saveSettings call), the shown notices, the canvas, or any other settings
field. -/
theorem toolbar_handlers_no_persistence (st : PluginState) (v : String)
    (w : Int) :
    ((colorPickerChange st v).storage = st.storage ∧
      (colorPickerChange st v).notices = st.notices ∧
      (colorPickerChange st v).ctx = st.ctx ∧
      (colorPickerChange st v).settings.penColor = v ∧
      (colorPickerChange st v).settings.penWidth = st.settings.penWidth ∧
      (colorPickerChange st v).settings.eraserSize = st.settings.eraserSize ∧
      (colorPickerChange st v).settings.showToolbar = st.settings.showToolbar) ∧
    ((penWidthSliderInput st w).storage = st.storage ∧
      (penWidthSliderInput st w).notices = st.notices ∧
      (penWidthSliderInput st w).ctx = st.ctx ∧
      (penWidthSliderInput st w).settings.penWidth = w ∧
      (penWidthSliderInput st w).settings.penColor = st.settings.penColor ∧
      (penWidthSliderInput st w).settings.eraserSize = st.settings.eraserSize ∧
      (penWidthSliderInput st w).settings.showToolbar = st.settings.showToolbar) := by
  exact ⟨⟨rfl, rfl, rfl, rfl, rfl, rfl, rfl⟩, ⟨rfl, rfl, rfl, rfl, rfl, rfl, rfl⟩⟩
